import Mathlib

/-!
# Verification of the JSXGraph line / grid core

Shallow embedding of the relevant parts of `src/Line.js` and of the grid
factory (`src/unnamed/part_000`, `JXG.createGrid`).  JavaScript numbers are
modelled by exact rationals `ℚ` wherever the code performs plain field
arithmetic; the few places where `Math.sqrt` / `Math.sin` / `Math.cos`
matter are modelled over `ℝ`, and the places where `NaN` / `Infinity` are
semantically load-bearing (`isReal` in `JXG.Line.prototype.updateRenderer`)
use an explicit IEEE-style value type `JNum`.
-/

namespace JXG

/-- Modelled from the spec: the global epsilon (`JXG.Math.eps` / `Mat.eps`),
whose defining file is not part of `src/`; the library-wide value is `1e-6`
("fixed epsilon tolerance" in the spec). -/
def eps : ℚ := 1 / 1000000

/-! ## Line: data model (`src/Line.js`)

A point participates in `Line.js` only through its `coords.usrCoords` and
`coords.scrCoords` homogeneous triples `[1, x, y]`; we keep the two affine
parts of each. -/

/-- The coordinate data of one defining point: user coordinates
`usrCoords = [1, usrX, usrY]` and screen coordinates
`scrCoords = [1, scrX, scrY]`. -/
structure Pt where
  usrX : ℚ
  usrY : ℚ
  scrX : ℚ
  scrY : ℚ
deriving DecidableEq

/-- The board fields read by `JXG.Line.prototype.hasPoint`:
`board.origin.scrCoords[1] / [2]`, `board.unitX/unitY`, `board.zoomX/zoomY`. -/
structure Board where
  originX : ℚ
  originY : ℚ
  unitX : ℚ
  unitY : ℚ
  zoomX : ℚ
  zoomY : ℚ
deriving DecidableEq

/-- The `JXG.Line` state read by `hasPoint` / `getSlope` / `getRise`:
the two defining points, the homogeneous standard form
`stdform = [c, a, b]` (indices 0, 1, 2), the two straightness flags
`visProp['straightFirst'] / ['straightLast']`, and the hit-test radius
`this.r` (declared `@type int` in the source). -/
structure Line where
  point1 : Pt
  point2 : Pt
  stdform0 : ℚ
  stdform1 : ℚ
  stdform2 : ℚ
  straightFirst : Bool
  straightLast : Bool
  r : ℤ
deriving DecidableEq

/-- The result type of `JXG.Line.prototype.getSlope`: either the string
sentinel `"INF"` or a finite slope value. -/
inductive Slope where
  | INF : Slope
  | val : ℚ → Slope
deriving DecidableEq

/-- `JXG.Line.prototype.getSlope`.  The source first picks whichever of the
screen/user representations has the larger x-span
(`if (Math.abs(p2scr[1]-p1scr[1]) <= Math.abs(p2usr[1]-p1usr[1]))` switches
to user coordinates), then returns `(y2-y1)/(x2-x1)` when the chosen x-span
is `>= JXG.Math.eps`, else the sentinel `"INF"`. -/
def Line.getSlope (L : Line) : Slope :=
  let px1 := if |L.point2.scrX - L.point1.scrX| ≤ |L.point2.usrX - L.point1.usrX|
    then L.point1.usrX else L.point1.scrX
  let py1 := if |L.point2.scrX - L.point1.scrX| ≤ |L.point2.usrX - L.point1.usrX|
    then L.point1.usrY else L.point1.scrY
  let px2 := if |L.point2.scrX - L.point1.scrX| ≤ |L.point2.usrX - L.point1.usrX|
    then L.point2.usrX else L.point2.scrX
  let py2 := if |L.point2.scrX - L.point1.scrX| ≤ |L.point2.usrX - L.point1.usrX|
    then L.point2.usrY else L.point2.scrY
  if eps ≤ |px2 - px1| then Slope.val ((py2 - py1) / (px2 - px1)) else Slope.INF

/-- `JXG.Line.prototype.getRise`:
`Math.round(p1Scr[2] - p1Scr[1]*(p2Scr[2]-p1Scr[2])/(p2Scr[1]-p1Scr[1]))`.
`Math.round` rounds half-up, which is Lean's `round` on `ℚ`.  (In `ℚ` the
division is total with `q/0 = 0`; `hasPoint` consumes the rise only in its
finite-slope branch.) -/
def Line.getRise (L : Line) : ℤ :=
  round (L.point1.scrY -
    L.point1.scrX * (L.point2.scrY - L.point1.scrY) / (L.point2.scrX - L.point1.scrX))

/-! ## Line: hit testing (`JXG.Line.prototype.hasPoint`) -/

/-- The screen-space standard form `c` computed at the top of the
straight-line branch of `hasPoint`:
`c[0] = stdform[0] - stdform[1]*originX/(unitX*zoomX) + stdform[2]*originY/(unitY*zoomY)`,
`c[1] = stdform[1]/(unitX*zoomX)`, `c[2] = stdform[2]/(-unitY*zoomY)`. -/
def screenStdform (B : Board) (L : Line) : ℚ × ℚ × ℚ :=
  (L.stdform0 - L.stdform1 * B.originX / (B.unitX * B.zoomX)
      + L.stdform2 * B.originY / (B.unitY * B.zoomY),
    L.stdform1 / (B.unitX * B.zoomX),
    L.stdform2 / (-B.unitY * B.zoomY))

/-- Modelled from the spec: `board.algebra.innerProduct(c, v, 3)` (the
algebra module is not part of `src/`) — the standard inner product of the
first three components, here with `v = [1, x, y]` the homogeneous screen
point. -/
def innerProduct (c : ℚ × ℚ × ℚ) (x y : ℚ) : ℚ :=
  c.1 * 1 + c.2.1 * x + c.2.2 * y

/-- The straight-line branch of `hasPoint`: `Math.abs(s) < 0.5` where `s` is
the inner product of the screen standard form with the homogeneous screen
point.  Note the threshold is the literal `0.5`, not `this.r` (the source
even carries the comment `// this.r`). -/
def straightHit (B : Board) (L : Line) (x y : ℚ) : Prop :=
  |innerProduct (screenStdform B L) x y| < 1 / 2

/-- The pixel-window scan of the finite-slope branch:
`for (i = -this.r; i < this.r; i++) has |= Math.abs(y - (slope*(x+i)+rise)) < this.r`. -/
def bandHit (L : Line) (slope : ℚ) (x y : ℚ) : Prop :=
  ∃ i : ℤ, -L.r ≤ i ∧ i < L.r ∧ |y - (slope * (x + (i : ℚ)) + (L.getRise : ℚ))| < (L.r : ℚ)

/-- Modelled from the spec: `JXG.Coords.prototype.distance` with
`COORDS_BY_SCREEN` (the `Coords` class is not part of `src/`) — the
"Euclidean distance in the requested representation". -/
noncomputable def distScr (p q : ℚ × ℚ) : ℝ :=
  Real.sqrt (((p.1 : ℝ) - (q.1 : ℝ)) ^ 2 + ((p.2 : ℝ) - (q.2 : ℝ)) ^ 2)

/-- Screen coordinates of a point as a pair. -/
def Pt.scr (p : Pt) : ℚ × ℚ := (p.scrX, p.scrY)

/-- The segment/ray clamping of the finite-slope branch: the scanned hit is
withdrawn (`has = false`) when the screen point lies outside the segment
(`distP1P > distP1P2 || distP2P > distP1P2`) and the corresponding
straightness flag forbids extension past the nearer endpoint. -/
def segReject (L : Line) (x y : ℚ) : Prop :=
  (distScr (x, y) L.point1.scr > distScr L.point1.scr L.point2.scr ∨
      distScr (x, y) L.point2.scr > distScr L.point1.scr L.point2.scr) ∧
    ((distScr (x, y) L.point1.scr < distScr (x, y) L.point2.scr ∧ L.straightFirst = false) ∨
      (¬distScr (x, y) L.point1.scr < distScr (x, y) L.point2.scr ∧ L.straightLast = false))

/-- The vertical branch of `hasPoint` (`slope == "INF"`, German comment
`senkrechte Gerade`): `Math.abs(x - p1Scr[1]) < this.r`, then the hit is
withdrawn by the screen-y ordering checks guarded by the straightness
flags. -/
def vertHit (L : Line) (x y : ℚ) : Prop :=
  |x - L.point1.scrX| < (L.r : ℚ) ∧
    ¬(L.straightFirst = false ∧
      ((L.point1.scrY < L.point2.scrY ∧ y < L.point1.scrY) ∨
        (L.point1.scrY > L.point2.scrY ∧ y > L.point1.scrY))) ∧
    ¬(L.straightLast = false ∧
      ((L.point1.scrY < L.point2.scrY ∧ y > L.point2.scrY) ∨
        (L.point1.scrY > L.point2.scrY ∧ y < L.point2.scrY)))

/-- `JXG.Line.prototype.hasPoint (x, y)` for a screen point `(x, y)`:
the straight-line branch when both straightness flags are set, otherwise
the scanned band plus segment clamping (finite slope), or the vertical
test (slope `"INF"`). -/
def hasPointP (B : Board) (L : Line) (x y : ℚ) : Prop :=
  if L.straightFirst && L.straightLast then
    straightHit B L x y
  else
    match L.getSlope with
    | Slope.val m => bandHit L m x y ∧ ¬segReject L x y
    | Slope.INF => vertHit L x y

/-! ## Line: standard form (`JXG.Line.prototype.updateStdform`)

`stdform = board.algebra.crossProduct(point1.usrCoords, point2.usrCoords)`
followed by `this.normalize()`.  The values live in `ℝ` because the
normalization divides by a square root. -/

/-- Modelled from the spec: `board.algebra.crossProduct` (the algebra module
is not part of `src/`) — the "homogeneous cross product of two 3-vectors"
`[u0, u1, u2] × [v0, v1, v2]`. -/
def crossProduct (u v : ℝ × ℝ × ℝ) : ℝ × ℝ × ℝ :=
  (u.2.1 * v.2.2 - u.2.2 * v.2.1,
    u.2.2 * v.1 - u.1 * v.2.2,
    u.1 * v.2.1 - u.2.1 * v.1)

/-- Modelled from the spec: `GeometryElement.prototype.normalize` (its
defining file is not part of `src/`) — the stdform `[c, a, b]` is "always
kept normalized" by "the `sqrt(a²+b²)` form": every component is divided by
`sqrt(stdform[1]² + stdform[2]²)`. -/
noncomputable def normalize (v : ℝ × ℝ × ℝ) : ℝ × ℝ × ℝ :=
  (v.1 / Real.sqrt (v.2.1 ^ 2 + v.2.2 ^ 2),
    v.2.1 / Real.sqrt (v.2.1 ^ 2 + v.2.2 ^ 2),
    v.2.2 / Real.sqrt (v.2.1 ^ 2 + v.2.2 ^ 2))

/-- `JXG.Line.prototype.updateStdform` as a function of the two defining
points' affine user coordinates: the homogeneous cross product of
`[1, x1, y1]` and `[1, x2, y2]`, normalized.  (The source also zeroes the
unused `stdform[3]` slot.) -/
noncomputable def updateStdform (p1 p2 : ℚ × ℚ) : ℝ × ℝ × ℝ :=
  normalize (crossProduct (1, (p1.1 : ℝ), (p1.2 : ℝ)) (1, (p2.1 : ℝ), (p2.2 : ℝ)))

/-! ## Line: renderer update (`JXG.Line.prototype.updateRenderer`)

Here `NaN`/`Infinity` are load-bearing (`isReal` is
`isNaN(x1+y1+x2+y2) ? false : true`), so the four user coordinates are
modelled by an IEEE-style value type. -/

/-- A JavaScript number as consumed by `updateRenderer`: a finite value, a
signed infinity (`inf true` is `+Infinity`), or `NaN`. -/
inductive JNum where
  | num : ℚ → JNum
  | inf : Bool → JNum
  | nan : JNum
deriving DecidableEq

/-- IEEE-754 addition on `JNum` (JavaScript `+`): `NaN` propagates,
opposite infinities give `NaN`, an infinity absorbs finite values.  (Finite
sums are exact here; double-precision overflow of a finite sum to an
infinity is not modelled — it could only produce further non-`NaN`
results.) -/
def JNum.add : JNum → JNum → JNum
  | JNum.nan, _ => JNum.nan
  | _, JNum.nan => JNum.nan
  | JNum.inf s, JNum.inf t => if s = t then JNum.inf s else JNum.nan
  | JNum.inf s, JNum.num _ => JNum.inf s
  | JNum.num _, JNum.inf t => JNum.inf t
  | JNum.num a, JNum.num b => JNum.num (a + b)

/-- JavaScript `isNaN` on a `JNum`. -/
def JNum.isNaN : JNum → Bool
  | JNum.nan => true
  | _ => false

/-- JavaScript `isFinite` on a `JNum` (true exactly for ordinary numbers). -/
def JNum.isFinite : JNum → Bool
  | JNum.num _ => true
  | _ => false

/-- The element state read and written by `JXG.Line.prototype.updateRenderer`:
the dirty flag `needsUpdate`, `visProp['visible']`, the previous `isReal`,
and the four user coordinates
`point1.coords.usrCoords[1/2]`, `point2.coords.usrCoords[1/2]`. -/
structure RLine where
  needsUpdate : Bool
  visible : Bool
  isReal : Bool
  p1x : JNum
  p1y : JNum
  p2x : JNum
  p2y : JNum
deriving DecidableEq

/-- The renderer calls issued by one `updateRenderer` pass
(`board.renderer.show/hide/updateLine`). -/
inductive REvent where
  | show : REvent
  | hide : REvent
  | updateLine : REvent
deriving DecidableEq

/-- The sum `point1.usrCoords[1] + point1.usrCoords[2] + point2.usrCoords[1]
+ point2.usrCoords[2]` whose `isNaN` decides `isReal`. -/
def RLine.coordSum (L : RLine) : JNum :=
  JNum.add (JNum.add (JNum.add L.p1x L.p1y) L.p2x) L.p2y

/-- `JXG.Line.prototype.updateRenderer`: runs only when
`needsUpdate && visProp['visible']`; recomputes `isReal`; on a transition
issues `show`/`hide`; pushes `updateLine` while real; finally clears
`needsUpdate`.  Returns the new state and the list of renderer calls. -/
def updateRenderer (L : RLine) : RLine × List REvent :=
  if L.needsUpdate && L.visible then
    let wasReal := L.isReal
    let newReal := !(L.coordSum).isNaN
    let L' : RLine := ⟨false, L.visible, newReal, L.p1x, L.p1y, L.p2x, L.p2y⟩
    if newReal then
      (L', (if wasReal ≠ newReal then [REvent.show] else []) ++ [REvent.updateLine])
    else
      (L', if wasReal ≠ newReal then [REvent.hide] else [])
  else
    (L, [])

/-! ## Grid (`JXG.createGrid`, `src/unnamed/part_000`)

Coordinates and configuration arithmetic are exact rationals; the entries of
the emitted `dataX`/`dataY` arrays live in `Option ℝ` (`none` is the `NaN`
break marker) because some faces use `Math.tan`/`Math.sin`/`Math.cos`/
`Math.sqrt`. -/

/-- One entry of a grid `dataX`/`dataY` array: a number or the `NaN` break. -/
abbrev GVal := Option ℝ

/-- JavaScript `face.toLowerCase()`: character-wise lowercasing (every face
name the source dispatches on is plain ASCII). -/
def jsToLowerCase (s : String) : String := String.mk (s.data.map Char.toLower)

/-- `maxLines = 5000`, the "maximum number of vertical or horizontal grid
elements (abort criterion for performance reasons)". -/
def maxLines : ℕ := 5000

/-- `createDataArrayForFace(face, grid, x, y, radiusX, radiusY, bbox)`.
The switch is on `face.toLowerCase()` (hence the source's `'A'` case is
unreachable).  `polygonVertices` is `grid.visProp.polygonvertices`,
`margin` is `grid.visProp.margin`, `unitX`/`unitY` are
`grid.board.unitX/unitY` (used by the `'line'` face only); the `visProp`
adjustments (`linecap`, `bezierDegree`) do not touch the returned arrays
and are not modelled.  In the `regpol` loop
`for (t = 0; t <= 2*pi; t += 2*pi/n)` the iterates are `t = k*(2*pi)/n`
for `k = 0, ..., n` in exact arithmetic. -/
noncomputable def createDataArrayForFace (face : String) (polygonVertices : ℕ)
    (margin unitX unitY : ℚ) (x y radiusX radiusY : ℚ)
    (bbox : ℚ × ℚ × ℚ × ℚ) : List GVal × List GVal :=
  let xr : ℝ := (x : ℝ)
  let yr : ℝ := (y : ℝ)
  let rX : ℝ := (radiusX : ℝ)
  let rY : ℝ := (radiusY : ℝ)
  match jsToLowerCase face with
  | "." | "point" =>
      ([some xr, some xr, none], [some yr, some yr, none])
  | "o" | "circle" =>
      let q : ℝ := 4 * Real.tan (Real.pi / 8) / 3
      ([some (xr + rX), some (xr + rX), some (xr + q * rX), some xr,
          some (xr - q * rX), some (xr - rX), some (xr - rX), some (xr - rX),
          some (xr - q * rX), some xr, some (xr + q * rX), some (xr + rX),
          some (xr + rX), none],
        [some yr, some (yr + q * rY), some (yr + rY), some (yr + rY),
          some (yr + rY), some (yr + q * rY), some yr, some (yr - q * rY),
          some (yr - rY), some (yr - rY), some (yr - rY), some (yr - q * rY),
          some yr, none])
  | "regpol" | "regularpolygon" =>
      let n := polygonVertices
      ((List.range (n + 1)).map
          (fun k => some (xr - rX * Real.sin (2 * Real.pi * k / n))) ++ [none],
        (List.range (n + 1)).map
          (fun k => some (yr - rY * Real.cos (2 * Real.pi * k / n))) ++ [none])
  | "[]" | "square" =>
      ([some (xr - rX), some (xr + rX), some (xr + rX), some (xr - rX),
          some (xr - rX), none],
        [some (yr + rY), some (yr + rY), some (yr - rY), some (yr - rY),
          some (yr + rY), none])
  | "<>" | "diamond" =>
      ([some xr, some (xr + rX), some xr, some (xr - rX), some xr, none],
        [some (yr + rY), some yr, some (yr - rY), some yr, some (yr + rY), none])
  | "<<>>" | "diamond2" =>
      let rx2 : ℝ := rX * Real.sqrt 2
      let ry2 : ℝ := rY * Real.sqrt 2
      ([some xr, some (xr + rx2), some xr, some (xr - rx2), some xr, none],
        [some (yr + ry2), some yr, some (yr - ry2), some yr, some (yr + ry2), none])
  | "x" | "cross" =>
      ([some (xr - rX), some (xr + rX), none, some (xr - rX), some (xr + rX), none],
        [some (yr + rY), some (yr - rY), none, some (yr - rY), some (yr + rY), none])
  | "+" | "plus" =>
      ([some (xr - rX), some (xr + rX), none, some xr, some xr, none],
        [some yr, some yr, none, some (yr - rY), some (yr + rY), none])
  | "-" | "minus" =>
      ([some (xr - rX), some (xr + rX), none], [some yr, some yr, none])
  | "|" | "divide" =>
      ([some xr, some xr, none], [some (yr - rY), some (yr + rY), none])
  | "^" | "a" | "triangleup" =>
      ([some (xr - rX), some xr, some (xr + rX), none],
        [some (yr - rY), some yr, some (yr - rY), none])
  | "v" | "triangledown" =>
      ([some (xr - rX), some xr, some (xr + rX), none],
        [some (yr + rY), some yr, some (yr + rY), none])
  | "<" | "triangleleft" =>
      ([some (xr + rX), some xr, some (xr + rX), none],
        [some (yr + rY), some yr, some (yr - rY), none])
  | ">" | "triangleright" =>
      ([some (xr - rX), some xr, some (xr - rX), none],
        [some (yr + rY), some yr, some (yr - rY), none])
  | "line" =>
      let m : ℝ := (margin : ℝ)
      ([some xr, some xr, none, some ((bbox.1 : ℝ) - m / (unitX : ℝ)),
          some ((bbox.2.2.1 : ℝ) + m / (unitX : ℝ)), none],
        [some ((bbox.2.1 : ℝ) + m / (unitY : ℝ)),
          some ((bbox.2.2.2 : ℝ) - m / (unitY : ℝ)), none, some yr, some yr, none])
  | _ => ([], [])

/-! ### Grid configuration and attribute resolution -/

/-- A `majorStep` component after array-normalization: the literal `'auto'`,
a plain number, or a percentage string.  (Modelled from the spec:
`Type.parseNumber` — "parse a literal/percentage-of-bounding-box value" —
is not part of `src/`; a plain number passes through, a percentage string
`p%` resolves to `p/100` of the reference length.) -/
inductive StepSpec where
  | auto : StepSpec
  | ofNum : ℚ → StepSpec
  | percent : ℚ → StepSpec
deriving DecidableEq

/-- A `sizeX`/`sizeY` attribute: absent, a plain number, a `px` quantity, or
a percentage string.  (Modelled from the spec: `Type.parseNumber` converts
"percentages of `majorStep` and pixel units into user-space units via the
board's unit scale"; a plain number passes through.) -/
inductive SizeSpec where
  | unset : SizeSpec
  | plain : ℚ → SizeSpec
  | px : ℚ → SizeSpec
  | percent : ℚ → SizeSpec
deriving DecidableEq

/-- The `forceSquare` attribute; the source sends `'max'` and boolean `true`
through the same branch, so they share a constructor. -/
inductive ForceSquareOpt where
  | fsMin : ForceSquareOpt
  | fsMax : ForceSquareOpt
  | fsOff : ForceSquareOpt
deriving DecidableEq

/-- A `minorElements` component: the literal `'auto'` or a number. -/
inductive MinorElemsSpec where
  | auto : MinorElemsSpec
  | num : ℚ → MinorElemsSpec
deriving DecidableEq

/-- The evaluated `visProp` attributes read by `majorGrid.updateDataArray`
(after array-normalization of `majorStep`). -/
structure MajorAttrs where
  majorStepX : StepSpec
  majorStepY : StepSpec
  gridX : Option ℚ
  gridY : Option ℚ
  sizeX : SizeSpec
  sizeY : SizeSpec
  face : String
  drawZero0 : Bool
  drawZeroX : Bool
  drawZeroY : Bool
  includeBoundaries : Bool
  forceSquare : ForceSquareOpt
  polygonVertices : ℕ
  margin : ℚ

/-- The evaluated `visProp` attributes read by `minorGrid.updateDataArray`
(after array-normalization of `minorElements`). -/
structure MinorAttrs where
  minorElementsX : MinorElemsSpec
  minorElementsY : MinorElemsSpec
  sizeX : SizeSpec
  sizeY : SizeSpec
  face : String
  drawZeroX : Bool
  drawZeroY : Bool
  includeBoundaries : Bool
  polygonVertices : ℕ
  margin : ℚ

/-- The board/parent-axes environment read by the grid: the unit scales,
the bounding box `[b0, b1, b2, b3] = [left, top, right, bottom]` from
`board.getBoundingBox()`, the parent axes' major-tick distances
(`parentAxes[i].ticks[0].getDistanceMajorTicks()`) and minor-tick counts
(`parentAxes[i].getAttribute('ticks').minorticks`), absent when the axis
does not exist. -/
structure GridBoard where
  unitX : ℚ
  unitY : ℚ
  b0 : ℚ
  b1 : ℚ
  b2 : ℚ
  b3 : ℚ
  axis0Dist : Option ℚ
  axis1Dist : Option ℚ
  axis0Minorticks : Option ℚ
  axis1Minorticks : Option ℚ

/-- Resolution of one `majorStep` component: the deprecated `gridX`/`gridY`
number overrides the step before the `'auto'`/parse dispatch; `'auto'`
falls back to `1` when the corresponding axis is absent. -/
def resolveStep (s : StepSpec) (gridOverride : Option ℚ) (axisDist : Option ℚ)
    (ref : ℚ) : ℚ :=
  match gridOverride with
  | some g => g
  | none =>
      match s with
      | StepSpec.auto => axisDist.getD 1
      | StepSpec.ofNum q => q
      | StepSpec.percent p => p / 100 * ref

/-- The `forceSquare` adjustment: equalize the two steps in pixel space
(`majorStep[i] * unit` compared), scaling to the smaller (`'min'`) or the
larger (`'max'`/`true`) pixel step. -/
def applyForceSquare (fs : ForceSquareOpt) (s0 s1 unitX unitY : ℚ) : ℚ × ℚ :=
  match fs with
  | ForceSquareOpt.fsMin =>
      if s0 * unitX ≤ s1 * unitY then (s0, s0 / unitY * unitX)
      else (s1 / unitX * unitY, s1)
  | ForceSquareOpt.fsMax =>
      if s0 * unitX ≤ s1 * unitY then (s1 / unitX * unitY, s1)
      else (s0, s0 / unitY * unitX)
  | ForceSquareOpt.fsOff => (s0, s1)

/-- The resolved `majorStep` pair (steps 1 and `forceSquare` of the
algorithm): per-axis resolution — the x-step percentage is taken of
`Math.abs(bbox[1]-bbox[3])` and the y-step percentage of
`Math.abs(bbox[0]-bbox[2])`, exactly as in the source — then the
`forceSquare` equalization. -/
def resolveMajorStep (A : MajorAttrs) (B : GridBoard) : ℚ × ℚ :=
  let s0 := resolveStep A.majorStepX A.gridX B.axis0Dist |B.b1 - B.b3|
  let s1 := resolveStep A.majorStepY A.gridY B.axis1Dist |B.b0 - B.b2|
  applyForceSquare A.forceSquare s0 s1 B.unitX B.unitY

/-- The symmetric size defaulting: an absent `sizeX` copies `sizeY` (and
vice versa), falling back to the given literal default. -/
def resolveSizeSpec (s other : SizeSpec) (dflt : ℚ) : SizeSpec :=
  match s with
  | SizeSpec.unset =>
      match other with
      | SizeSpec.unset => SizeSpec.plain dflt
      | o => o
  | o => o

/-- The major marker half-extent for one axis: a percentage is
`p/100 * majorStep[i] / 2`; any number is pixels, `q / unit / 2`.
(The `unset` case is unreachable after `resolveSizeSpec`.) -/
def majorRadiusOf (s : SizeSpec) (step unit : ℚ) : ℚ :=
  match s with
  | SizeSpec.percent p => p / 100 * step / 2
  | SizeSpec.plain q => q / unit / 2
  | SizeSpec.px q => q / unit / 2
  | SizeSpec.unset => 5 / unit / 2

/-- The resolved major half-extents `(majorRadiusX, majorRadiusY)`. -/
def resolveMajorRadii (A : MajorAttrs) (B : GridBoard) (step : ℚ × ℚ) : ℚ × ℚ :=
  (majorRadiusOf (resolveSizeSpec A.sizeX A.sizeY 5) step.1 B.unitX,
    majorRadiusOf (resolveSizeSpec A.sizeY A.sizeX 5) step.2 B.unitY)

/-- Modelled from the spec: `Mat.roundToStep` (its defining file is not part
of `src/`) — "round down to the nearest multiple of step below the
bounding-box edge". -/
def roundToStep (v s : ℚ) : ℚ := s * (⌊v / s⌋ : ℤ)

/-- Modelled from the spec: `Type.parseNumber(value, percentOfWhat,
unitFactor)` as used for the minor sizes — a percentage resolves against
the reference (`minorStep[i]/2`), a `px` quantity is divided by the unit,
a plain number passes through. -/
def parseNumberSize (s : SizeSpec) (ref unit : ℚ) : ℚ :=
  match s with
  | SizeSpec.percent p => p / 100 * ref
  | SizeSpec.px q => q / unit
  | SizeSpec.plain q => q
  | SizeSpec.unset => 3

/-- One `minorElements` component: a number is taken literally, `'auto'`
reads the axis' `minorticks` and falls back to `0` without an axis. -/
def resolveMinorElems (m : MinorElemsSpec) (axisMinorticks : Option ℚ) : ℚ :=
  match m with
  | MinorElemsSpec.num q => q
  | MinorElemsSpec.auto => axisMinorticks.getD 0

/-! ### Grid enumeration -/

/-- The number of iterations of the inner loop
`for (x = startX; x <= bbox[2]; x += step)`: the iterates are
`startX + k*step` with `k*step ≤ bbox[2] - startX`.  (The JavaScript loop
terminates only for a positive step, which every sensible configuration
yields; for a non-positive step the embedding enumerates nothing.) -/
def xCount (startX b2 step : ℚ) : ℕ :=
  if 0 < step then (⌊(b2 - startX) / step⌋ + 1).toNat else 0

/-- The number of iterations of the outer loop
`for (y = startY; y >= bbox[3]; y -= step)`: the iterates are
`startY - k*step` with `k*step ≤ startY - bbox[3]`. -/
def yCount (startY b3 step : ℚ) : ℕ :=
  if 0 < step then (⌊(startY - b3) / step⌋ + 1).toNat else 0

/-- The row-major scan of the two nested loops: for each `y` iterate
(top to bottom) every `x` iterate (left to right) surviving `keep`. -/
def gridCenters (startX startY : ℚ) (nx ny : ℕ) (stepX stepY : ℚ)
    (keep : ℚ → ℚ → Bool) : List (ℚ × ℚ) :=
  ((List.range ny).map (fun (j : ℕ) =>
    (List.range nx).filterMap (fun (i : ℕ) =>
      if keep (startX + (i : ℚ) * stepX) (startY - (j : ℚ) * stepY) then
        some (startX + (i : ℚ) * stepX, startY - (j : ℚ) * stepY)
      else none))).flatten

/-- The `continue` condition of the major loop body: the three draw-zero
suppressions and the `includeBoundaries` suppression. -/
def majorSuppress (A : MajorAttrs) (B : GridBoard) (rX rY x y : ℚ) : Bool :=
  (!A.drawZero0 && decide (|y| < eps) && decide (|x| < eps)) ||
    (!A.drawZeroX && decide (|y| < eps) && decide (|x| ≥ eps)) ||
    (!A.drawZeroY && decide (|x| < eps) && decide (|y| ≥ eps)) ||
    (!A.includeBoundaries &&
      (decide (x ≤ B.b0 + rX) || decide (x ≥ B.b2 - rX) ||
        decide (y ≤ B.b3 + rY) || decide (y ≥ B.b1 - rY)))

/-- The abort guard of `majorGrid.updateDataArray`:
`Math.abs(bbox[2]) < Math.abs(majorStep[0] * maxLines) &&
Math.abs(bbox[3]) < Math.abs(majorStep[1] * maxLines)`.  (The `isFinite`
conjuncts of the source are identically true in the exact model.) -/
def majorFiniteGuard (B : GridBoard) (step : ℚ × ℚ) : Bool :=
  decide (|B.b2| < |step.1 * (maxLines : ℚ)|) &&
    decide (|B.b3| < |step.2 * (maxLines : ℚ)|)

/-- The surviving major grid centers, in the loop's row-major order. -/
def majorCenters (A : MajorAttrs) (B : GridBoard) : List (ℚ × ℚ) :=
  let step := resolveMajorStep A B
  let rad := resolveMajorRadii A B step
  gridCenters (roundToStep B.b0 step.1) (roundToStep B.b1 step.2)
    (xCount (roundToStep B.b0 step.1) B.b2 step.1)
    (yCount (roundToStep B.b1 step.2) B.b3 step.2) step.1 step.2
    (fun x y => !majorSuppress A B rad.1 rad.2 x y)

/-- `majorGrid.updateDataArray`: resolves `majorStep` and the half-extents,
computes the aligned start corner, and — when the abort guard passes —
emits the face outline of every surviving grid center into `dataX`/`dataY`,
else leaves both arrays empty. -/
noncomputable def majorUpdateDataArray (A : MajorAttrs) (B : GridBoard) :
    List GVal × List GVal :=
  let step := resolveMajorStep A B
  let rad := resolveMajorRadii A B step
  if majorFiniteGuard B step then
    (((majorCenters A B).map (fun p =>
        (createDataArrayForFace A.face A.polygonVertices A.margin B.unitX B.unitY
          p.1 p.2 rad.1 rad.2 (B.b0, B.b1, B.b2, B.b3)).1)).flatten,
      ((majorCenters A B).map (fun p =>
        (createDataArrayForFace A.face A.polygonVertices A.margin B.unitX B.unitY
          p.1 p.2 rad.1 rad.2 (B.b0, B.b1, B.b2, B.b3)).2)).flatten)
  else ([], [])

/-- JavaScript truncation toward zero (used by the `%` operator). -/
def jsTrunc (q : ℚ) : ℤ := if 0 ≤ q then ⌊q⌋ else ⌈q⌉

/-- The JavaScript remainder operator `a % b` (sign follows the dividend). -/
def jsMod (a b : ℚ) : ℚ := a - b * (jsTrunc (a / b) : ℤ)

/-- The `continue` conditions of the minor loop body: the
overlap-with-major suppression (different for a `'line'` major face), the
minor draw-zero suppression, and the `includeBoundaries` suppression.
`gStep` is the closure-global `majorStep` left by the last major run,
`gMRX`/`gMRY` the global `majorRadiusX`/`majorRadiusY`; `mr0`/`mr1` are
`minorRadius[0]`/`minorRadius[1]`. -/
def minorSuppress (Amin : MinorAttrs) (majorFace : String)
    (majorDrawZero0 majorDrawZeroX majorDrawZeroY : Bool) (B : GridBoard)
    (gStep : ℚ × ℚ) (gMRX gMRY mr0 mr1 x y : ℚ) : Bool :=
  let XdisTo0 := abs (roundToStep (abs x) gStep.1 - abs x)
  let XdisFrom0 := gStep.1 - XdisTo0
  let YdisTo0 := abs (roundToStep (abs y) gStep.2 - abs y)
  let YdisFrom0 := gStep.2 - YdisTo0
  let overlapMajor : Bool :=
    if majorFace = "line" then
      decide (XdisTo0 - mr0 - gMRX < eps) || decide (XdisFrom0 - mr0 - gMRX < eps) ||
        decide (YdisTo0 - mr1 - gMRY < eps) || decide (YdisFrom0 - mr1 - gMRY < eps)
    else
      ((decide (XdisTo0 - mr0 - gMRX < eps) || decide (XdisFrom0 - mr0 - gMRX < eps)) &&
        (decide (YdisTo0 - mr1 - gMRY < eps) || decide (YdisFrom0 - mr1 - gMRY < eps))) &&
      ((majorDrawZero0 || decide (gMRY - |y| + mr1 < eps) ||
          decide (gMRX - |x| + mr0 < eps)) &&
        (majorDrawZeroX || decide (gMRY - |y| + mr1 < eps) ||
          decide (gMRX + |x| - mr0 < eps)) &&
        (majorDrawZeroY || decide (gMRX - |x| + mr0 < eps) ||
          decide (gMRY + |y| - mr1 < eps)))
  let dis0To := |jsMod B.b0 gStep.1|
  let dis1To := |jsMod B.b1 gStep.2|
  let dis2To := |jsMod B.b2 gStep.1|
  let dis3To := |jsMod B.b3 gStep.2|
  let dis0From := gStep.1 - dis0To
  let dis1From := gStep.2 - dis1To
  let dis2From := gStep.1 - dis2To
  let dis3From := gStep.2 - dis3To
  overlapMajor ||
    ((!Amin.drawZeroY && decide (|x| < eps)) || (!Amin.drawZeroX && decide (|y| < eps))) ||
    (!Amin.includeBoundaries &&
      ((decide (x - mr0 - B.b0 - gMRX + dis0From < eps) && decide (dis0From - gMRX < eps)) ||
        (decide (x - mr0 - B.b0 - gMRX - dis0To < eps) && decide (dis0To - gMRX < eps)) ||
        (decide (-x - mr0 + B.b2 - gMRX + dis2From < eps) && decide (dis2From - gMRX < eps)) ||
        (decide (-x - mr0 + B.b2 - gMRX - dis2To < eps) && decide (dis2To - gMRX < eps)) ||
        (decide (-y - mr1 + B.b1 - gMRY + dis1From < eps) && decide (dis1From - gMRY < eps)) ||
        (decide (-y - mr1 + B.b1 - gMRY - dis1To < eps) && decide (dis1To - gMRY < eps)) ||
        (decide (y - mr1 - B.b3 - gMRY + dis3From < eps) && decide (dis3From - gMRY < eps)) ||
        (decide (y - mr1 - B.b3 - gMRY - dis3To < eps) && decide (dis3To - gMRY < eps)) ||
        decide (-y - mr1 + B.b1 < eps) ||
        decide (x - mr0 - B.b0 < eps) ||
        decide (y - mr1 - B.b3 < eps) ||
        decide (-x - mr0 + B.b2 < eps)))

/-- The abort guard of `minorGrid.updateDataArray` (note the `<=` on the
x-side, unlike the `<` of the major guard). -/
def minorFiniteGuard (B : GridBoard) (minorStep : ℚ × ℚ) : Bool :=
  decide (|B.b2| ≤ |minorStep.1 * (maxLines : ℚ)|) &&
    decide (|B.b3| < |minorStep.2 * (maxLines : ℚ)|)

/-- The resolved `minorStep` pair:
`minorStep[i] = majorStep[i] / (minorElements[i] + 1)`, computed from the
closure-global `majorStep` left by the last major run. -/
def minorStepOf (Amin : MinorAttrs) (B : GridBoard) (gStep : ℚ × ℚ) : ℚ × ℚ :=
  (gStep.1 / (resolveMinorElems Amin.minorElementsX B.axis0Minorticks + 1),
    gStep.2 / (resolveMinorElems Amin.minorElementsY B.axis1Minorticks + 1))

/-- The resolved minor half-extents `minorRadius[0]`/`minorRadius[1]`. -/
def minorRadiiOf (Amin : MinorAttrs) (B : GridBoard) (minorStep : ℚ × ℚ) : ℚ × ℚ :=
  (parseNumberSize (resolveSizeSpec Amin.sizeX Amin.sizeY 3) (minorStep.1 / 2) B.unitX,
    parseNumberSize (resolveSizeSpec Amin.sizeY Amin.sizeX 3) (minorStep.2 / 2) B.unitY)

/-- The surviving minor grid centers, in the loop's row-major order. -/
def minorCenters (Amin : MinorAttrs) (Amaj : MajorAttrs) (B : GridBoard)
    (gStep : ℚ × ℚ) (gMRX gMRY : ℚ) : List (ℚ × ℚ) :=
  let minorStep := minorStepOf Amin B gStep
  let mr := minorRadiiOf Amin B minorStep
  gridCenters (roundToStep B.b0 minorStep.1) (roundToStep B.b1 minorStep.2)
    (xCount (roundToStep B.b0 minorStep.1) B.b2 minorStep.1)
    (yCount (roundToStep B.b1 minorStep.2) B.b3 minorStep.2) minorStep.1 minorStep.2
    (fun x y => !minorSuppress Amin Amaj.face Amaj.drawZero0 Amaj.drawZeroX
      Amaj.drawZeroY B gStep gMRX gMRY mr.1 mr.2 x y)

/-- `minorGrid.updateDataArray`: resolves `minorElements` into the minor
step from the closure-global `majorStep`, resolves the minor half-extents,
and — when its abort guard passes — emits the face outlines of the
surviving minor centers; the suppression also reads the global
`majorRadiusX`/`majorRadiusY` and the major grid's `face` and draw-zero
attributes. -/
noncomputable def minorUpdateDataArray (Amin : MinorAttrs) (Amaj : MajorAttrs)
    (B : GridBoard) (gStep : ℚ × ℚ) (gMRX gMRY : ℚ) : List GVal × List GVal :=
  let minorStep := minorStepOf Amin B gStep
  let mr := minorRadiiOf Amin B minorStep
  if minorFiniteGuard B minorStep then
    (((minorCenters Amin Amaj B gStep gMRX gMRY).map (fun p =>
        (createDataArrayForFace Amin.face Amin.polygonVertices Amin.margin
          B.unitX B.unitY p.1 p.2 mr.1 mr.2 (B.b0, B.b1, B.b2, B.b3)).1)).flatten,
      ((minorCenters Amin Amaj B gStep gMRX gMRY).map (fun p =>
        (createDataArrayForFace Amin.face Amin.polygonVertices Amin.margin
          B.unitX B.unitY p.1 p.2 mr.1 mr.2 (B.b0, B.b1, B.b2, B.b3)).2)).flatten)
  else ([], [])

/-- The mutable state shared by the two grid curves: the closure globals
`majorStep`, `majorRadiusX`, `majorRadiusY` written by the major run and
read by the minor run, and each curve's own `dataX`/`dataY` buffers. -/
structure GridState where
  gMajorStep : ℚ × ℚ
  gMajorRadiusX : ℚ
  gMajorRadiusY : ℚ
  majorDataX : List GVal
  majorDataY : List GVal
  minorDataX : List GVal
  minorDataY : List GVal

/-- One invocation of `majorGrid.updateDataArray` as a state transformer:
writes the globals and the major `dataX`/`dataY`, leaves the minor buffers
untouched. -/
noncomputable def majorRun (A : MajorAttrs) (B : GridBoard) (s : GridState) :
    GridState :=
  let step := resolveMajorStep A B
  let rad := resolveMajorRadii A B step
  let d := majorUpdateDataArray A B
  ⟨step, rad.1, rad.2, d.1, d.2, s.minorDataX, s.minorDataY⟩

/-- One invocation of `minorGrid.updateDataArray` as a state transformer:
reads the globals, writes only the minor `dataX`/`dataY`. -/
noncomputable def minorRun (Amin : MinorAttrs) (Amaj : MajorAttrs) (B : GridBoard)
    (s : GridState) : GridState :=
  let d := minorUpdateDataArray Amin Amaj B s.gMajorStep s.gMajorRadiusX
    s.gMajorRadiusY
  ⟨s.gMajorStep, s.gMajorRadiusX, s.gMajorRadiusY, s.majorDataX, s.majorDataY,
    d.1, d.2⟩

/-- `majorGrid.hasPoint = function () { return false; }`. -/
def majorGridHasPoint (_x _y : ℚ) : Bool := false

/-- `minorGrid.hasPoint = function () { return false; }`. -/
def minorGridHasPoint (_x _y : ℚ) : Bool := false

/-! ## Theorems -/

/-- C10: for every input screen point, `hasPoint` on a grid element (both
the major grid and the minor grid) returns `false` — grids are never
hit-testable, regardless of their marker geometry. -/
theorem C10_grid_never_hit (x y : ℚ) :
    majorGridHasPoint x y = false ∧ minorGridHasPoint x y = false :=
  ⟨rfl, rfl⟩

/-- C8: calling `updateDataArray` twice in succession with the bounding box
and all grid configuration attributes unchanged reproduces the grid state
exactly — in particular element-wise identical `dataX`/`dataY` — for both
the major and the minor grid. -/
theorem C8_updateDataArray_idempotent (Amaj : MajorAttrs) (Amin : MinorAttrs)
    (B : GridBoard) (s : GridState) :
    majorRun Amaj B (majorRun Amaj B s) = majorRun Amaj B s ∧
      minorRun Amin Amaj B (minorRun Amin Amaj B s) = minorRun Amin Amaj B s :=
  ⟨rfl, rfl⟩

/-- C1 fails on the code: `updateRenderer` runs its body (and hence clears
`needsUpdate`) only under `this.needsUpdate && this.visProp['visible']`, so
an invisible dirty line keeps `needsUpdate = true` when the call returns. -/
theorem C1_counterexample :
    (updateRenderer ⟨true, false, false, JNum.num 0, JNum.num 0, JNum.num 0,
      JNum.num 0⟩).1.needsUpdate = true := rfl

/-- C1 (amended): on every visible line element, `updateRenderer` returns
with `needsUpdate = false`, regardless of the `isReal` state or the
coordinate values; an invisible element is returned untouched, with no
renderer call. -/
theorem C1_needsUpdate_cleared (L : RLine) (h : L.visible = true) :
    (updateRenderer L).1.needsUpdate = false ∧
      ∀ L' : RLine, L'.visible = false → updateRenderer L' = (L', []) := by
  refine ⟨?_, ?_⟩
  · cases hn : L.needsUpdate <;> simp [updateRenderer, h, hn]
    split <;> rfl
  · intro L' h'
    simp [updateRenderer, h']

/-- Witness for `C1_needsUpdate_cleared` at a concrete visible dirty line
and a concrete invisible one. -/
theorem C1_witness :
    (updateRenderer ⟨true, true, true, JNum.num 1, JNum.num 2, JNum.num 3,
        JNum.num 4⟩).1.needsUpdate = false ∧
      updateRenderer ⟨true, false, true, JNum.num 1, JNum.num 2, JNum.num 3,
        JNum.num 4⟩ =
        (⟨true, false, true, JNum.num 1, JNum.num 2, JNum.num 3, JNum.num 4⟩, []) :=
  ⟨(C1_needsUpdate_cleared ⟨true, true, true, JNum.num 1, JNum.num 2, JNum.num 3,
      JNum.num 4⟩ rfl).1,
    (C1_needsUpdate_cleared ⟨true, true, true, JNum.num 1, JNum.num 2, JNum.num 3,
      JNum.num 4⟩ rfl).2 _ rfl⟩

/-- C2 fails on the code: `isReal` is computed as the `isNaN` test on the
coordinate sum, and an `Infinity` coordinate (non-finite but non-NaN)
still yields `isReal = true`. -/
theorem C2_counterexample :
    (updateRenderer ⟨true, true, false, JNum.inf true, JNum.num 0, JNum.num 0,
      JNum.num 0⟩).1.isReal = true ∧
      (JNum.inf true).isFinite = false :=
  ⟨rfl, rfl⟩

/-- C2 (amended): in an `updateRenderer` pass that runs its body
(`needsUpdate` and visible), the new `isReal` is exactly the non-`NaN`-ness
of the coordinate sum `x1+y1+x2+y2`; the renderer `show` call is issued
exactly once, precisely on a transition of `isReal` from false to true —
in particular never while the new `isReal` is false. -/
theorem C2_isReal_show (L : RLine) (h1 : L.needsUpdate = true)
    (h2 : L.visible = true) :
    (updateRenderer L).1.isReal = !L.coordSum.isNaN ∧
      (updateRenderer L).2.count REvent.show =
        (if L.coordSum.isNaN = false ∧ L.isReal = false then 1 else 0) ∧
      ((updateRenderer L).1.isReal = false → REvent.show ∉ (updateRenderer L).2) := by
  cases hs : L.coordSum.isNaN <;> cases hr : L.isReal <;>
    simp [updateRenderer, h1, h2, hs, hr]

/-- Witness for `C2_isReal_show` at a concrete dirty visible line whose
coordinates are all finite but whose previous `isReal` is false. -/
theorem C2_witness :
    (updateRenderer ⟨true, true, false, JNum.num 0, JNum.num 0, JNum.num 0,
        JNum.num 0⟩).1.isReal =
        !(RLine.coordSum ⟨true, true, false, JNum.num 0, JNum.num 0, JNum.num 0,
          JNum.num 0⟩).isNaN ∧
      (updateRenderer ⟨true, true, false, JNum.num 0, JNum.num 0, JNum.num 0,
          JNum.num 0⟩).2.count REvent.show = 1 := by
  have h := C2_isReal_show ⟨true, true, false, JNum.num 0, JNum.num 0, JNum.num 0,
    JNum.num 0⟩ rfl rfl
  exact ⟨h.1, by simpa using h.2.1⟩

/-- The C5 counterexample line: the x-coordinates of its two points differ
by `eps/2` (nonzero) in both the user and the screen representation. -/
def lineC5 : Line :=
  ⟨⟨0, 0, 0, 0⟩, ⟨1 / 2000000, 1, 1 / 2000000, 1⟩, 0, 0, 0, false, false, 4⟩

/-- C5 fails on the code: `getSlope` compares the chosen x-span against
`JXG.Math.eps`, not against zero, so two points whose x-coordinates differ
by `eps/2` in both representations still produce the `"INF"` sentinel. -/
theorem C5_counterexample :
    lineC5.getSlope = Slope.INF ∧
      lineC5.point2.usrX ≠ lineC5.point1.usrX ∧
      lineC5.point2.scrX ≠ lineC5.point1.scrX := by
  refine ⟨?_, by norm_num [lineC5], by norm_num [lineC5]⟩
  simp only [Line.getSlope, lineC5]
  norm_num [eps]
  intro h
  rw [abs_of_pos (by norm_num)] at h
  norm_num at h

/-- C5 (amended): `getSlope` returns the sentinel `"INF"` iff the two
points' x-spans are below `eps` in both the user and the screen
representation; otherwise it returns `(y2-y1)/(x2-x1)` computed in
whichever representation has the larger x-span (user coordinates on
ties). -/
theorem C5_getSlope_characterization (L : Line) :
    (L.getSlope = Slope.INF ↔
      |L.point2.usrX - L.point1.usrX| < eps ∧
        |L.point2.scrX - L.point1.scrX| < eps) ∧
      (|L.point2.scrX - L.point1.scrX| ≤ |L.point2.usrX - L.point1.usrX| →
        eps ≤ |L.point2.usrX - L.point1.usrX| →
        L.getSlope = Slope.val
          ((L.point2.usrY - L.point1.usrY) / (L.point2.usrX - L.point1.usrX))) ∧
      (|L.point2.usrX - L.point1.usrX| < |L.point2.scrX - L.point1.scrX| →
        eps ≤ |L.point2.scrX - L.point1.scrX| →
        L.getSlope = Slope.val
          ((L.point2.scrY - L.point1.scrY) / (L.point2.scrX - L.point1.scrX))) := by
  rcases le_or_lt |L.point2.scrX - L.point1.scrX| |L.point2.usrX - L.point1.usrX|
    with hc | hc
  · refine ⟨?_, fun _ heps => ?_, fun hlt _ => ?_⟩
    · simp only [Line.getSlope, if_pos hc]
      constructor
      · intro h
        by_cases he : eps ≤ |L.point2.usrX - L.point1.usrX|
        · rw [if_pos he] at h
          exact absurd h (by simp)
        · push_neg at he
          exact ⟨he, lt_of_le_of_lt hc he⟩
      · intro h
        rw [if_neg (not_le.mpr h.1)]
    · simp only [Line.getSlope, if_pos hc, if_pos heps]
    · exact absurd hlt (not_lt.mpr hc)
  · refine ⟨?_, fun hle _ => ?_, fun _ heps => ?_⟩
    · simp only [Line.getSlope, if_neg (not_le.mpr hc)]
      constructor
      · intro h
        by_cases he : eps ≤ |L.point2.scrX - L.point1.scrX|
        · rw [if_pos he] at h
          exact absurd h (by simp)
        · push_neg at he
          exact ⟨lt_trans hc he, he⟩
      · intro h
        rw [if_neg (not_le.mpr h.2)]
    · exact absurd hle (not_le.mpr hc)
    · simp only [Line.getSlope, if_neg (not_le.mpr hc), if_pos heps]

/-- Witness for `C5_getSlope_characterization` at a concrete line whose
user x-span (2) dominates the screen x-span (1). -/
theorem C5_witness :
    Line.getSlope ⟨⟨0, 0, 0, 0⟩, ⟨2, 3, 1, 1⟩, 0, 0, 0, false, false, 4⟩ =
      Slope.val (3 / 2) := by
  have h := (C5_getSlope_characterization
    ⟨⟨0, 0, 0, 0⟩, ⟨2, 3, 1, 1⟩, 0, 0, 0, false, false, 4⟩).2.1
    (by norm_num) (by norm_num [eps])
  simpa using h

/-- C3: for a line with both `straightFirst` and `straightLast` set,
`hasPoint (x, y)` holds iff `|innerProduct(c, [1, x, y])| < 0.5` for the
screen-transformed standard form `c`; the result does not depend on the
configured tolerance radius `r`. -/
theorem C3_straight_hasPoint (B : Board) (L : Line) (x y : ℚ) (r' : ℤ)
    (h1 : L.straightFirst = true) (h2 : L.straightLast = true) :
    (hasPointP B L x y ↔ |innerProduct (screenStdform B L) x y| < 1 / 2) ∧
      (hasPointP B ⟨L.point1, L.point2, L.stdform0, L.stdform1, L.stdform2,
        L.straightFirst, L.straightLast, r'⟩ x y ↔ hasPointP B L x y) := by
  constructor
  · simp [hasPointP, h1, h2, straightHit]
  · simp [hasPointP, h1, h2, straightHit, screenStdform]

/-- Witness for `C3_straight_hasPoint` at a concrete board, line and screen
point (with a changed radius `7`). -/
theorem C3_witness :
    (hasPointP ⟨0, 0, 1, 1, 1, 1⟩ ⟨⟨0, 0, 0, 0⟩, ⟨1, 1, 1, 1⟩, 0, 1, -1, true,
        true, 4⟩ 5 5 ↔
      |innerProduct (screenStdform ⟨0, 0, 1, 1, 1, 1⟩ ⟨⟨0, 0, 0, 0⟩,
        ⟨1, 1, 1, 1⟩, 0, 1, -1, true, true, 4⟩) 5 5| < 1 / 2) ∧
      (hasPointP ⟨0, 0, 1, 1, 1, 1⟩ ⟨⟨0, 0, 0, 0⟩, ⟨1, 1, 1, 1⟩, 0, 1, -1, true,
        true, 7⟩ 5 5 ↔
        hasPointP ⟨0, 0, 1, 1, 1, 1⟩ ⟨⟨0, 0, 0, 0⟩, ⟨1, 1, 1, 1⟩, 0, 1, -1, true,
          true, 4⟩ 5 5) :=
  C3_straight_hasPoint ⟨0, 0, 1, 1, 1, 1⟩ ⟨⟨0, 0, 0, 0⟩, ⟨1, 1, 1, 1⟩, 0, 1, -1,
    true, true, 4⟩ 5 5 7 rfl rfl

/-- C4: for distinct defining points, the stdform `[c, a, b]` computed by
`updateStdform` satisfies `a·x + b·y + c = 0` at both points, and swapping
the points changes the stdform by the nonzero scalar `-1`. -/
theorem C4_stdform_correct (p1 p2 : ℚ × ℚ) (h : p1 ≠ p2) :
    ((updateStdform p1 p2).2.1 * (p1.1 : ℝ) + (updateStdform p1 p2).2.2 * (p1.2 : ℝ) +
        (updateStdform p1 p2).1 = 0) ∧
      ((updateStdform p1 p2).2.1 * (p2.1 : ℝ) + (updateStdform p1 p2).2.2 * (p2.2 : ℝ) +
        (updateStdform p1 p2).1 = 0) ∧
      ∃ k : ℝ, k ≠ 0 ∧
        (updateStdform p2 p1).1 = k * (updateStdform p1 p2).1 ∧
        (updateStdform p2 p1).2.1 = k * (updateStdform p1 p2).2.1 ∧
        (updateStdform p2 p1).2.2 = k * (updateStdform p1 p2).2.2 := by
  obtain ⟨a1, b1⟩ := p1
  obtain ⟨a2, b2⟩ := p2
  simp only [updateStdform, crossProduct, normalize]
  have hne : ¬((a1 : ℝ) = (a2 : ℝ) ∧ (b1 : ℝ) = (b2 : ℝ)) := by
    rintro ⟨hx, hy⟩
    exact h (by simp [Prod.ext_iff, Rat.cast_injective hx, Rat.cast_injective hy])
  have harg : (0 : ℝ) <
      ((b1 : ℝ) * 1 - 1 * (b2 : ℝ)) ^ 2 + (1 * (a2 : ℝ) - (a1 : ℝ) * 1) ^ 2 := by
    rcases lt_or_le 0 (((b1 : ℝ) * 1 - 1 * (b2 : ℝ)) ^ 2 +
        (1 * (a2 : ℝ) - (a1 : ℝ) * 1) ^ 2) with hp | hp
    · exact hp
    · exfalso
      have h1 : ((b1 : ℝ) * 1 - 1 * (b2 : ℝ)) ^ 2 = 0 ∧
          (1 * (a2 : ℝ) - (a1 : ℝ) * 1) ^ 2 = 0 := by
        constructor <;> nlinarith [sq_nonneg ((b1 : ℝ) * 1 - 1 * (b2 : ℝ)),
          sq_nonneg (1 * (a2 : ℝ) - (a1 : ℝ) * 1)]
      apply hne
      constructor
      · have := pow_eq_zero_iff (n := 2) (by norm_num) |>.mp h1.2
        linarith [this]
      · have := pow_eq_zero_iff (n := 2) (by norm_num) |>.mp h1.1
        linarith [this]
  have hs : (0 : ℝ) < Real.sqrt (((b1 : ℝ) * 1 - 1 * (b2 : ℝ)) ^ 2 +
      (1 * (a2 : ℝ) - (a1 : ℝ) * 1) ^ 2) := Real.sqrt_pos.mpr harg
  have hsne := ne_of_gt hs
  refine ⟨?_, ?_, ⟨-1, by norm_num, ?_, ?_, ?_⟩⟩
  · ring
  · ring
  · rw [show ((b2 : ℝ) * 1 - 1 * (b1 : ℝ)) ^ 2 + (1 * (a1 : ℝ) - (a2 : ℝ) * 1) ^ 2 =
      ((b1 : ℝ) * 1 - 1 * (b2 : ℝ)) ^ 2 + (1 * (a2 : ℝ) - (a1 : ℝ) * 1) ^ 2 by ring]
    ring
  · rw [show ((b2 : ℝ) * 1 - 1 * (b1 : ℝ)) ^ 2 + (1 * (a1 : ℝ) - (a2 : ℝ) * 1) ^ 2 =
      ((b1 : ℝ) * 1 - 1 * (b2 : ℝ)) ^ 2 + (1 * (a2 : ℝ) - (a1 : ℝ) * 1) ^ 2 by ring]
    ring
  · rw [show ((b2 : ℝ) * 1 - 1 * (b1 : ℝ)) ^ 2 + (1 * (a1 : ℝ) - (a2 : ℝ) * 1) ^ 2 =
      ((b1 : ℝ) * 1 - 1 * (b2 : ℝ)) ^ 2 + (1 * (a2 : ℝ) - (a1 : ℝ) * 1) ^ 2 by ring]
    ring

/-- Witness for `C4_stdform_correct` at the distinct points `(0,0)` and
`(1,0)`. -/
theorem C4_witness :
    ((updateStdform (0, 0) (1, 0)).2.1 * (((0, 0) : ℚ × ℚ).1 : ℝ) +
        (updateStdform (0, 0) (1, 0)).2.2 * (((0, 0) : ℚ × ℚ).2 : ℝ) +
        (updateStdform (0, 0) (1, 0)).1 = 0) ∧
      ∃ k : ℝ, k ≠ 0 ∧
        (updateStdform (1, 0) (0, 0)).1 = k * (updateStdform (0, 0) (1, 0)).1 ∧
        (updateStdform (1, 0) (0, 0)).2.1 = k * (updateStdform (0, 0) (1, 0)).2.1 ∧
        (updateStdform (1, 0) (0, 0)).2.2 = k * (updateStdform (0, 0) (1, 0)).2.2 := by
  have h := C4_stdform_correct (0, 0) (1, 0) (by norm_num [Prod.ext_iff])
  exact ⟨h.1, h.2.2⟩

/-- The C6 counterexample: a unit-length vertical segment in screen
coordinates. -/
def lineC6 : Line :=
  ⟨⟨100, 100, 100, 100⟩, ⟨100, 101, 100, 101⟩, 0, 0, 0, false, false, 4⟩

/-- C6 fails on the code: in the vertical (`slope == "INF"`) branch the
clamping compares only screen-`y` values, so a screen point beside a short
vertical segment — within the pixel window, between the endpoints in `y`,
but farther from both endpoints than their mutual distance — is accepted. -/
theorem C6_counterexample :
    lineC6.straightFirst = false ∧ lineC6.straightLast = false ∧
      distScr ((1039 / 10 : ℚ), (201 / 2 : ℚ)) lineC6.point1.scr >
        distScr lineC6.point1.scr lineC6.point2.scr ∧
      hasPointP ⟨0, 0, 1, 1, 1, 1⟩ lineC6 (1039 / 10) (201 / 2) := by
  refine ⟨rfl, rfl, ?_, ?_⟩
  · show distScr ((1039 / 10 : ℚ), (201 / 2 : ℚ)) (100, 100) >
      distScr (100, 100) (100, 101)
    unfold distScr
    rw [show (((1039 / 10 : ℚ) : ℝ) - ((100 : ℚ) : ℝ)) ^ 2 +
        (((201 / 2 : ℚ) : ℝ) - ((100 : ℚ) : ℝ)) ^ 2 = 1546 / 100 by push_cast; norm_num]
    rw [show (((100 : ℚ) : ℝ) - ((100 : ℚ) : ℝ)) ^ 2 +
        (((100 : ℚ) : ℝ) - ((101 : ℚ) : ℝ)) ^ 2 = 1 by push_cast; norm_num]
    exact Real.sqrt_lt_sqrt (by norm_num) (by norm_num)
  · have hs : lineC6.getSlope = Slope.INF := by
      simp only [Line.getSlope, lineC6]
      norm_num [eps]
    unfold hasPointP
    rw [hs]
    norm_num [vertHit, lineC6]
    rw [abs_of_pos (by norm_num : (0 : ℚ) < 39 / 10)]
    norm_num

/-- C6 (amended): for a finite segment (`straightFirst = straightLast =
false`) whose slope is finite (not the `"INF"` sentinel), every screen point
whose distance to one of the endpoints exceeds the distance between the two
endpoints is rejected by `hasPoint`, even when it lies within the
perpendicular tolerance band; the vertical branch instead clamps by
screen-`y` ordering. -/
theorem C6_segment_clamped (B : Board) (L : Line) (x y m : ℚ)
    (hsf : L.straightFirst = false) (hsl : L.straightLast = false)
    (hm : L.getSlope = Slope.val m)
    (hfar : distScr (x, y) L.point1.scr > distScr L.point1.scr L.point2.scr ∨
      distScr (x, y) L.point2.scr > distScr L.point1.scr L.point2.scr) :
    ¬hasPointP B L x y := by
  unfold hasPointP
  rw [hsf, hsl, hm]
  simp only [Bool.and_self, Bool.false_and, if_false]
  rintro ⟨-, hnr⟩
  apply hnr
  refine ⟨hfar, ?_⟩
  by_cases hlt : distScr (x, y) L.point1.scr < distScr (x, y) L.point2.scr
  · exact Or.inl ⟨hlt, hsf⟩
  · exact Or.inr ⟨hlt, hsl⟩

/-- Witness for `C6_segment_clamped`: the screen point `(20, 0)` beyond the
right endpoint of the horizontal segment from `(0, 0)` to `(10, 0)` is not
hit. -/
theorem C6_witness :
    ¬hasPointP ⟨0, 0, 1, 1, 1, 1⟩ ⟨⟨0, 0, 0, 0⟩, ⟨10, 0, 10, 0⟩, 0, 0, 0,
      false, false, 4⟩ 20 0 := by
  refine C6_segment_clamped ⟨0, 0, 1, 1, 1, 1⟩ ⟨⟨0, 0, 0, 0⟩, ⟨10, 0, 10, 0⟩,
    0, 0, 0, false, false, 4⟩ 20 0 0 rfl rfl ?_ (Or.inl ?_)
  · simp only [Line.getSlope]
    norm_num [eps]
  · unfold distScr Pt.scr
    rw [show ((((20 : ℚ) : ℝ)) - (((0 : ℚ)) : ℝ)) ^ 2 +
        ((((0 : ℚ)) : ℝ) - (((0 : ℚ)) : ℝ)) ^ 2 = 400 by push_cast; norm_num]
    rw [show ((((0 : ℚ)) : ℝ) - (((10 : ℚ)) : ℝ)) ^ 2 +
        ((((0 : ℚ)) : ℝ) - (((0 : ℚ)) : ℝ)) ^ 2 = 100 by push_cast; norm_num]
    exact Real.sqrt_lt_sqrt (by norm_num) (by norm_num)

/-- The face names recognized by the `createDataArrayForFace` switch (after
lowercasing). -/
def knownFaces : List String :=
  [".", "point", "o", "circle", "regpol", "regularpolygon", "[]", "square",
    "<>", "diamond", "<<>>", "diamond2", "x", "cross", "+", "plus", "-", "minus",
    "|", "divide", "^", "a", "triangleup", "v", "triangledown", "<",
    "triangleleft", ">", "triangleright", "line"]

lemma createDataArrayForFace_length_eq (face : String) (n : ℕ)
    (margin unitX unitY x y rX rY : ℚ) (bbox : ℚ × ℚ × ℚ × ℚ) :
    (createDataArrayForFace face n margin unitX unitY x y rX rY bbox).1.length =
      (createDataArrayForFace face n margin unitX unitY x y rX rY bbox).2.length := by
  unfold createDataArrayForFace
  split <;> simp

lemma createDataArrayForFace_unknown (face : String) (n : ℕ)
    (margin unitX unitY x y rX rY : ℚ) (bbox : ℚ × ℚ × ℚ × ℚ)
    (h : jsToLowerCase face ∉ knownFaces) :
    createDataArrayForFace face n margin unitX unitY x y rX rY bbox = ([], []) := by
  unfold createDataArrayForFace
  split
  all_goals first
    | rfl
    | (rename_i heq; exact absurd (by rw [heq]; decide) h)

lemma flatten_map_length_eq {α β γ : Type} (l : List α) (f : α → List β)
    (g : α → List γ) (h : ∀ a, (f a).length = (g a).length) :
    ((l.map f).flatten).length = ((l.map g).flatten).length := by
  induction l with
  | nil => rfl
  | cons a t ih => simp [h a, ih]

/-- C9: `createDataArrayForFace` always returns two coordinate arrays of
equal length — an unknown face yields two empty arrays — and consequently,
after every `updateDataArray` call on the major or the minor grid, `dataX`
and `dataY` have equal length. -/
theorem C9_dataArrays_balanced :
    (∀ (face : String) (n : ℕ) (margin unitX unitY x y rX rY : ℚ)
      (bbox : ℚ × ℚ × ℚ × ℚ),
      (createDataArrayForFace face n margin unitX unitY x y rX rY bbox).1.length =
        (createDataArrayForFace face n margin unitX unitY x y rX rY bbox).2.length ∧
      (jsToLowerCase face ∉ knownFaces →
        createDataArrayForFace face n margin unitX unitY x y rX rY bbox = ([], []))) ∧
      (∀ (A : MajorAttrs) (B : GridBoard),
        (majorUpdateDataArray A B).1.length = (majorUpdateDataArray A B).2.length) ∧
      (∀ (Amin : MinorAttrs) (Amaj : MajorAttrs) (B : GridBoard) (gStep : ℚ × ℚ)
        (gMRX gMRY : ℚ),
        (minorUpdateDataArray Amin Amaj B gStep gMRX gMRY).1.length =
          (minorUpdateDataArray Amin Amaj B gStep gMRX gMRY).2.length) := by
  refine ⟨fun face n margin unitX unitY x y rX rY bbox =>
    ⟨createDataArrayForFace_length_eq face n margin unitX unitY x y rX rY bbox,
      fun h => createDataArrayForFace_unknown face n margin unitX unitY x y rX rY
        bbox h⟩, fun A B => ?_, fun Amin Amaj B gStep gMRX gMRY => ?_⟩
  · unfold majorUpdateDataArray
    dsimp only
    split
    · exact flatten_map_length_eq _ _ _ (fun p =>
        createDataArrayForFace_length_eq _ _ _ _ _ _ _ _ _ _)
    · rfl
  · unfold minorUpdateDataArray
    dsimp only
    split
    · exact flatten_map_length_eq _ _ _ (fun p =>
        createDataArrayForFace_length_eq _ _ _ _ _ _ _ _ _ _)
    · rfl

/-- Witness for `C9_dataArrays_balanced`: the unknown face `"blub"` yields
two empty arrays. -/
theorem C9_witness :
    jsToLowerCase "blub" ∉ knownFaces ∧
      createDataArrayForFace "blub" 3 0 1 1 0 0 1 1 (0, 0, 1, 1) = ([], []) :=
  ⟨by decide, (C9_dataArrays_balanced.1 "blub" 3 0 1 1 0 0 1 1 (0, 0, 1, 1)).2
    (by decide)⟩

lemma mem_gridCenters (startX startY stepX stepY : ℚ) (nx ny i j : ℕ)
    (keep : ℚ → ℚ → Bool) (hi : i < nx) (hj : j < ny)
    (hkeep : keep (startX + (i : ℚ) * stepX) (startY - (j : ℚ) * stepY) = true) :
    (startX + (i : ℚ) * stepX, startY - (j : ℚ) * stepY) ∈
      gridCenters startX startY nx ny stepX stepY keep := by
  unfold gridCenters
  apply List.mem_flatten.mpr
  refine ⟨_, List.mem_map_of_mem _ (List.mem_range.mpr hj), ?_⟩
  apply List.mem_filterMap.mpr
  exact ⟨i, List.mem_range.mpr hi, by rw [if_pos hkeep]⟩

lemma flatten_map_ne_nil {α β : Type} (l : List α) (f : α → List β) (a : α)
    (ha : a ∈ l) (hf : f a ≠ []) : (l.map f).flatten ≠ [] := by
  intro h
  exact hf (List.flatten_eq_nil_iff.mp h (f a) (List.mem_map_of_mem f ha))

/-- The major-grid configuration of the C7 counterexample: unit steps, the
`point` face, no suppression. -/
def attrsC7 : MajorAttrs :=
  ⟨StepSpec.ofNum 1, StepSpec.ofNum 1, none, none, SizeSpec.plain 5,
    SizeSpec.plain 5, "point", true, true, true, true, ForceSquareOpt.fsOff, 3, 0⟩

/-- The board of the C7 counterexample: a thin bounding box
`[-4999.5, 0.25, 0.5, -0.25]` reaching far to the left of the origin. -/
def boardC7 : GridBoard :=
  ⟨1, 1, -9999 / 2, 1 / 4, 1 / 2, -1 / 4, none, none, none, none⟩

/-- C7 fails on the code: the abort guard compares `|bbox[2]|` and
`|bbox[3]|` (the distances of the right/bottom edges from the origin)
against `step * 5000`, not the number of enumerated rows/columns; for a
bounding box reaching 5000.5 units to the left of the origin with unit
step, 5501 columns are implied — more than the cap — yet the guard passes
and markers are emitted. -/
theorem C7_counterexample :
    5000 < xCount (roundToStep boardC7.b0 (resolveMajorStep attrsC7 boardC7).1)
        boardC7.b2 (resolveMajorStep attrsC7 boardC7).1 ∧
      (majorUpdateDataArray attrsC7 boardC7).1 ≠ [] := by
  have hstep : resolveMajorStep attrsC7 boardC7 = (1, 1) := by
    simp [resolveMajorStep, resolveStep, applyForceSquare, attrsC7, boardC7]
  have hstartX : roundToStep boardC7.b0 (1 : ℚ) = -5000 := by
    simp only [roundToStep, boardC7]
    norm_num
  have hstartY : roundToStep boardC7.b1 (1 : ℚ) = 0 := by
    simp only [roundToStep, boardC7]
    norm_num
  have hxc : xCount (-5000) boardC7.b2 1 = 5001 := by
    simp only [xCount, boardC7]
    norm_num
    rfl
  have hyc : yCount 0 boardC7.b3 1 = 1 := by
    simp only [yCount, boardC7]
    norm_num
  have habs : |(1 : ℚ) * 5000| = 1 * 5000 := abs_of_pos (by norm_num)
  have hguard : majorFiniteGuard boardC7 (1, 1) = true := by
    simp only [majorFiniteGuard, boardC7, maxLines, Bool.and_eq_true,
      decide_eq_true_eq]
    constructor
    · push_cast
      rw [habs, abs_lt]
      constructor <;> norm_num
    · push_cast
      rw [habs, abs_lt]
      constructor <;> norm_num
  have hrad : resolveMajorRadii attrsC7 boardC7 (1, 1) = (5 / 2, 5 / 2) := by
    simp only [resolveMajorRadii, resolveSizeSpec, majorRadiusOf, attrsC7, boardC7]
    norm_num
  constructor
  · rw [hstep, hstartX, hxc]
    norm_num
  · unfold majorUpdateDataArray
    dsimp only
    rw [hstep, hguard]
    simp only [if_true]
    apply flatten_map_ne_nil _ _ ((-5000 : ℚ), (0 : ℚ))
    · unfold majorCenters
      dsimp only
      rw [hstep, hrad, hstartX, hstartY, hxc, hyc]
      dsimp only
      have hkeep : (fun x y => !majorSuppress attrsC7 boardC7 (5 / 2) (5 / 2) x y)
          ((-5000 : ℚ) + ((0 : ℕ) : ℚ) * 1) ((0 : ℚ) - ((0 : ℕ) : ℚ) * 1) = true := by
        simp [majorSuppress, attrsC7]
      have := mem_gridCenters (-5000) 0 1 1 5001 1 0 0
        (fun x y => !majorSuppress attrsC7 boardC7 (5 / 2) (5 / 2) x y)
        (by norm_num) (by norm_num) hkeep
      simpa using this
    · rw [hrad]
      dsimp only
      simp [createDataArrayForFace, show jsToLowerCase attrsC7.face = "point" from rfl]

/-- C7 (amended): when the abort guard fails — `|bbox[2]|` at least
`|majorStep[0]·5000|` or `|bbox[3]|` at least `|majorStep[1]·5000|` for the
major grid, the analogous test (with `≤`/`<` as in the source) on the minor
step for the minor grid — `updateDataArray` emits no markers at all: it
leaves `dataX` and `dataY` empty and returns normally, a silent no-op. -/
theorem C7_guard_silent_noop :
    (∀ (A : MajorAttrs) (B : GridBoard),
      majorFiniteGuard B (resolveMajorStep A B) = false →
      majorUpdateDataArray A B = ([], [])) ∧
      (∀ (Amin : MinorAttrs) (Amaj : MajorAttrs) (B : GridBoard) (gStep : ℚ × ℚ)
        (gMRX gMRY : ℚ),
        minorFiniteGuard B (minorStepOf Amin B gStep) = false →
        minorUpdateDataArray Amin Amaj B gStep gMRX gMRY = ([], [])) := by
  constructor
  · intro A B h
    unfold majorUpdateDataArray
    dsimp only
    rw [h]
    simp
  · intro Amin Amaj B gStep gMRX gMRY h
    unfold minorUpdateDataArray
    dsimp only
    rw [h]
    simp

/-- Witness for `C7_guard_silent_noop`: a bounding box whose right edge sits
6000 units from the origin with unit major step fails the guard, and the
major grid emits nothing. -/
theorem C7_witness :
    majorFiniteGuard ⟨1, 1, -1, 1, 6000, -1, none, none, none, none⟩
        (resolveMajorStep attrsC7 ⟨1, 1, -1, 1, 6000, -1, none, none, none, none⟩) =
      false ∧
      majorUpdateDataArray attrsC7 ⟨1, 1, -1, 1, 6000, -1, none, none, none, none⟩ =
        ([], []) := by
  have hstep : resolveMajorStep attrsC7
      ⟨1, 1, -1, 1, 6000, -1, none, none, none, none⟩ = (1, 1) := by
    simp [resolveMajorStep, resolveStep, applyForceSquare, attrsC7]
  have hnot : ¬(|(6000 : ℚ)| < |1 * ((5000 : ℕ) : ℚ)|) := by
    push_cast
    rw [abs_of_pos (by norm_num : (0 : ℚ) < 6000),
      abs_of_pos (by norm_num : (0 : ℚ) < 1 * 5000)]
    norm_num
  have hg : majorFiniteGuard ⟨1, 1, -1, 1, 6000, -1, none, none, none, none⟩
      ((1 : ℚ), (1 : ℚ)) = false := by
    simp only [majorFiniteGuard, maxLines]
    rw [decide_eq_false hnot, Bool.false_and]
  refine ⟨by rw [hstep]; exact hg, ?_⟩
  exact C7_guard_silent_noop.1 attrsC7 ⟨1, 1, -1, 1, 6000, -1, none, none, none,
    none⟩ (by rw [hstep]; exact hg)

end JXG
